import Mathlib

/-!
Shallow embedding of the telit-sl869-power driver (src/telit-sl869-power.c).

The driver owns two GPIO output lines (vbatt_enable, power_enable) and a
boolean enabled flag.  We model the device data struct sl869_power by the
logical values of the two lines together with the flag, and every hardware
interaction (line configuration at request time, gpiod_set_value_cansleep,
msleep) as an explicit event so that frame and ordering properties can be
stated about traces.

Library functions called by the driver are embedded from their documented
kernel semantics: kstrtol from lib/kstrtox.c (base 0, 64-bit long),
gpio_is_valid as the 0 <= n < ARCH_NR_GPIOS range check, and
devm_gpio_request_one as managed acquisition whose resources are released
automatically when probe returns an error (the devres contract).
-/

/-- Kernel error numbers used by the driver (as positive constants;
the functions return their negations). -/
def ENOMEM : Int := 12

def ENODEV : Int := 19

def EINVAL : Int := 22

def ERANGE : Int := 34

def EPROBE_DEFER : Int := 517

/-- State of struct sl869_power: the logical values of the two GPIO lines
plus the enabled flag.  (The dev pointer carries no sequencing state.) -/
structure SL869Power where
  vbatt_enable : Bool
  power_enable : Bool
  enabled : Bool
  deriving DecidableEq

/-- Hardware-visible events emitted by the driver: line configuration at
request time (gpio number and initial logical value), logical writes to the
two lines (gpiod_set_value_cansleep), and msleep. -/
inductive HwEvent where
  | config : Int → Bool → HwEvent
  | setVbatt : Bool → HwEvent
  | setPower : Bool → HwEvent
  | msleep : Nat → HwEvent
  deriving DecidableEq

/-- power_set from the source: if the target equals the current enabled
flag, return without touching hardware; otherwise write the power_enable
line and update the flag.  The returned list holds the hardware writes
performed. -/
def power_set (power : SL869Power) (set : Bool) : SL869Power × List HwEvent :=
  if power.enabled = set then (power, [])
  else ({ power with power_enable := set, enabled := set }, [HwEvent.setPower set])

/-- The controller query: enabled_show reads power->enabled, nothing else. -/
def get_power (power : SL869Power) : Bool :=
  power.enabled

/-- enabled_show: sprintf(buf, "%d\n", power->enabled) renders the bool as
0 or 1 followed by a newline; it mutates nothing (its type records that: it
takes the state and returns only text). -/
def enabled_show (power : SL869Power) : String :=
  if power.enabled then "1\n" else "0\n"

/-! ### kstrtol (lib/kstrtox.c, base 0, 64-bit long) -/

deriving instance DecidableEq for Except

/-- _tolower restricted to what the parser needs. -/
def tolower_c (c : Char) : Char :=
  if 'A' ≤ c ∧ c ≤ 'Z' then Char.ofNat (c.toNat + 32) else c

/-- Value of a hexadecimal digit character, none for a non-digit. -/
def hexDigitValue (c : Char) : Option Nat :=
  if '0' ≤ c ∧ c ≤ '9' then some (c.toNat - '0'.toNat)
  else if 'a' ≤ c ∧ c ≤ 'f' then some (c.toNat - 'a'.toNat + 10)
  else if 'A' ≤ c ∧ c ≤ 'F' then some (c.toNat - 'A'.toNat + 10)
  else none

/-- Loop of _parse_integer: consume digits of the base, accumulating the
value as a 64-bit unsigned (truncated mod 2^64) with an overflow flag;
returns (characters consumed, value, overflow). -/
def parse_integer_loop (base : Nat) : List Char → Nat → Nat → Bool → Nat × Nat × Bool
  | [], n, acc, ovf => (n, acc, ovf)
  | c :: cs, n, acc, ovf =>
    match hexDigitValue c with
    | none => (n, acc, ovf)
    | some d =>
      if base ≤ d then (n, acc, ovf)
      else parse_integer_loop base cs (n + 1) ((acc * base + d) % 2 ^ 64)
        (ovf || decide (2 ^ 64 ≤ acc * base + d))

/-- _parse_integer: digits of the given base from the front of the string. -/
def parse_integer (s : List Char) (base : Nat) : Nat × Nat × Bool :=
  parse_integer_loop base s 0 0 false

/-- _parse_integer_fixup_radix: base 0 becomes 16 on a 0x prefix followed
by a hex digit, 8 on a bare leading 0, 10 otherwise; a 0x prefix is then
skipped when the base is 16.  The terminating NUL of the C string is
modelled by the default character of getD. -/
def parse_integer_fixup_radix (s : List Char) (base : Nat) : List Char × Nat :=
  let base2 :=
    if base = 0 then
      if s.getD 0 '\x00' = '0' then
        if tolower_c (s.getD 1 '\x00') = 'x' ∧ (hexDigitValue (s.getD 2 '\x00')).isSome = true
        then 16 else 8
      else 10
    else base
  if base2 = 16 ∧ s.getD 0 '\x00' = '0' ∧ tolower_c (s.getD 1 '\x00') = 'x' then
    (s.drop 2, base2)
  else (s, base2)

/-- _kstrtoull: fix up the radix, parse the digits, reject overflow
(-ERANGE), an empty digit run or trailing garbage (-EINVAL); one trailing
newline is tolerated. -/
def kstrtoull_inner (s : List Char) (base : Nat) : Except Int Nat :=
  let sb := parse_integer_fixup_radix s base
  let r := parse_integer sb.1 sb.2
  if r.2.2 = true then Except.error (-ERANGE)
  else if r.1 = 0 then Except.error (-EINVAL)
  else
    let rest := sb.1.drop r.1
    let rest2 := if rest.getD 0 '\x00' = '\n' then rest.drop 1 else rest
    if rest2 = [] then Except.ok r.2.1 else Except.error (-EINVAL)

/-- kstrtoull: skip one leading plus sign. -/
def kstrtoull (s : List Char) (base : Nat) : Except Int Nat :=
  if s.getD 0 '\x00' = '+' then kstrtoull_inner (s.drop 1) base
  else kstrtoull_inner s base

/-- Reinterpret a 64-bit unsigned value as the signed long long it encodes. -/
def u64ToInt (x : Nat) : Int :=
  if x < 2 ^ 63 then (x : Int) else (x : Int) - 2 ^ 64

/-- Two's-complement negation on 64 bits. -/
def neg_u64 (x : Nat) : Nat :=
  (2 ^ 64 - x % 2 ^ 64) % 2 ^ 64

/-- kstrtoll: a leading minus sign parses the magnitude and negates it in
64-bit two's complement, rejecting results that are not nonpositive longs;
otherwise the unsigned parse must fit in a nonnegative long long. -/
def kstrtoll (s : List Char) (base : Nat) : Except Int Int :=
  if s.getD 0 '\x00' = '-' then
    match kstrtoull_inner (s.drop 1) base with
    | Except.error e => Except.error e
    | Except.ok tmp =>
      if 0 < u64ToInt (neg_u64 tmp) then Except.error (-EINVAL)
      else Except.ok (u64ToInt (neg_u64 tmp))
  else
    match kstrtoull s base with
    | Except.error e => Except.error e
    | Except.ok tmp =>
      if u64ToInt tmp < 0 then Except.error (-EINVAL)
      else Except.ok (tmp : Int)

/-- kstrtol on an LP64 kernel (long is 64 bits), as called by the driver
with base 0. -/
def kstrtol (s : String) (base : Nat) : Except Int Int :=
  kstrtoll s.data base

/-- enabled_store: parse the buffer with kstrtol(buf, 0, ..); on a parse
error return that error with no state change and no hardware write; on
success call power_set with the C truthiness of the parsed value and
return the byte count consumed (the full size of the buffer). -/
def enabled_store (power : SL869Power) (buf : String) :
    Except Int Nat × SL869Power × List HwEvent :=
  match kstrtol buf 0 with
  | Except.error e => (Except.error e, power, [])
  | Except.ok v =>
    let r := power_set power (v != 0)
    (Except.ok buf.length, r.1, r.2)

/-! ### Probe, remove, suspend, resume -/

/-- The request flags computed by probe from the OF polarity flag:
active-low lines are requested with GPIOF_ACTIVE_LOW | GPIOF_OUT_INIT_HIGH,
active-high lines with GPIOF_OUT_INIT_LOW. -/
structure GpioFlags where
  active_low : Bool
  out_init_high : Bool
  deriving DecidableEq

def requestFlags (ofActiveLow : Bool) : GpioFlags :=
  if ofActiveLow then ⟨true, true⟩ else ⟨false, false⟩

/-- Logical value of a freshly requested line: the physical init level
read through the active-low inversion (gpiolib semantics). -/
def initLogical (f : GpioFlags) : Bool :=
  Bool.xor f.active_low f.out_init_high

/-- gpio_is_valid from the kernel: 0 <= number < ARCH_NR_GPIOS (512). -/
def gpio_is_valid (n : Int) : Bool :=
  decide (0 ≤ n ∧ n < 512)

/-- Result of devm_gpio_request_one: requesting an invalid gpio number
fails (-EINVAL); otherwise the outcome is the environment-supplied one. -/
def gpio_request_result (gpio : Int) (envErr : Int) : Int :=
  if gpio_is_valid gpio then envErr else -EINVAL

/-- Everything probe consumes from its surroundings: whether devm_kzalloc
succeeds, the result of each of_get_named_gpio_flags lookup (the gpio
number, negative on failure, with its OF_GPIO_ACTIVE_LOW flag), the result
each devm_gpio_request_one would give on a valid number, and the
sysfs_create_group result. -/
structure ProbeEnv where
  allocOk : Bool
  vbattLookup : Int
  vbattActiveLow : Bool
  vbattReqErr : Int
  powerLookup : Int
  powerActiveLow : Bool
  powerReqErr : Int
  sysfsErr : Int
  deriving DecidableEq

/-- What a probe call leaves behind: its return value, the gpio numbers
still claimed once it has returned (devres releases every managed request
when probe fails), the driver data when it succeeded, whether the sysfs
group exists, and the hardware events emitted along the way. -/
structure ProbeOutcome where
  ret : Int
  owned : List Int
  st : Option SL869Power
  groupCreated : Bool
  events : List HwEvent
  deriving DecidableEq

/-- sl869_power_probe.  Follows the source line by line: allocate; look up
vbatt-enable, returning the lookup error itself when the number is invalid
(so -EPROBE_DEFER propagates); request it, mapping any request failure to
-ENODEV; look up power-enable WITHOUT a validity check and request it,
again mapping failure to -ENODEV (an invalid number makes the request
fail); assert vbatt_enable; msleep(1000); create the sysfs group,
returning its error on failure.  Managed (devm) requests are released by
the core whenever probe returns nonzero, so owned is empty on every error
path. -/
def sl869_power_probe (env : ProbeEnv) : ProbeOutcome :=
  if env.allocOk = false then ⟨-ENOMEM, [], none, false, []⟩
  else
    let g1 := env.vbattLookup
    if gpio_is_valid g1 = false then ⟨g1, [], none, false, []⟩
    else
      let f1 := requestFlags env.vbattActiveLow
      if gpio_request_result g1 env.vbattReqErr ≠ 0 then ⟨-ENODEV, [], none, false, []⟩
      else
        let e1 := HwEvent.config g1 (initLogical f1)
        let g2 := env.powerLookup
        let f2 := requestFlags env.powerActiveLow
        if gpio_request_result g2 env.powerReqErr ≠ 0 then
          ⟨-ENODEV, [], none, false, [e1]⟩
        else
          let e2 := HwEvent.config g2 (initLogical f2)
          let p0 : SL869Power := ⟨initLogical f1, initLogical f2, false⟩
          let p1 : SL869Power := { p0 with vbatt_enable := true }
          let evs := [e1, e2, HwEvent.setVbatt true, HwEvent.msleep 1000]
          if env.sysfsErr ≠ 0 then
            ⟨env.sysfsErr, [], none, false, evs⟩
          else
            ⟨0, [g1, g2], some p1, true, evs⟩

/-- Device state after a successful probe: the driver data plus whether
the sysfs attribute group is registered. -/
structure DeviceState where
  power : SL869Power
  groupPresent : Bool
  deriving DecidableEq

/-- sl869_power_remove: withdraw the sysfs group and return 0; no hardware
event, no change to the driver data. -/
def sl869_power_remove (d : DeviceState) : Int × DeviceState × List HwEvent :=
  (0, { d with groupPresent := false }, [])

/-- sl869_power_suspend: power_set(power, 0) then return 0. -/
def sl869_power_suspend (power : SL869Power) : Int × SL869Power × List HwEvent :=
  let r := power_set power false
  (0, r.1, r.2)

/-- sl869_power_resume: power_set(power, 1) then return 0. -/
def sl869_power_resume (power : SL869Power) : Int × SL869Power × List HwEvent :=
  let r := power_set power true
  (0, r.1, r.2)

/-! ### Steady-state operations for reachability -/

/-- The operations available on an initialized controller: a direct
power_set, the two lifecycle hooks, and the two sysfs attribute accesses. -/
inductive Op where
  | set_power : Bool → Op
  | suspend : Op
  | resume : Op
  | attr_read : Op
  | attr_write : String → Op

/-- State reached by one operation (outputs and traces discarded). -/
def applyOp (power : SL869Power) : Op → SL869Power
  | Op.set_power b => (power_set power b).1
  | Op.suspend => (sl869_power_suspend power).2.1
  | Op.resume => (sl869_power_resume power).2.1
  | Op.attr_read => power
  | Op.attr_write buf => (enabled_store power buf).2.1

/-- State reached by a sequence of operations. -/
def applyOps (power : SL869Power) (ops : List Op) : SL869Power :=
  ops.foldl applyOp power

/-- Hardware events emitted by one operation. -/
def opEvents (power : SL869Power) : Op → List HwEvent
  | Op.set_power b => (power_set power b).2
  | Op.suspend => (sl869_power_suspend power).2.2
  | Op.resume => (sl869_power_resume power).2.2
  | Op.attr_read => []
  | Op.attr_write buf => (enabled_store power buf).2.2

/-- An event is a write to the power line. -/
def isPowerWrite : HwEvent → Bool
  | HwEvent.setPower _ => true
  | _ => false

/-! ### Helper lemmas -/

/-- Both request-flag combinations computed by probe start the line at a
false logical value: active-low lines are driven physically high, and
active-high lines physically low. -/
theorem initLogical_requestFlags (b : Bool) : initLogical (requestFlags b) = false := by
  cases b <;> decide

/-- power_set never writes the vbatt line value. -/
theorem power_set_vbatt (p : SL869Power) (b : Bool) :
    (power_set p b).1.vbatt_enable = p.vbatt_enable := by
  unfold power_set
  split
  · rfl
  · rfl

/-- power_set emits power-line writes only. -/
theorem power_set_events (p : SL869Power) (b : Bool) :
    (power_set p b).2 = [] ∨ (power_set p b).2 = [HwEvent.setPower b] := by
  unfold power_set
  split
  · exact Or.inl rfl
  · exact Or.inr rfl

/-- power_set preserves the line/flag agreement invariant. -/
theorem power_set_inv (p : SL869Power) (b : Bool) (h : p.power_enable = p.enabled) :
    (power_set p b).1.power_enable = (power_set p b).1.enabled := by
  unfold power_set
  split
  · exact h
  · rfl

/-- Single-step frame lemma: no operation writes the vbatt line value. -/
theorem applyOp_vbatt (p : SL869Power) (op : Op) :
    (applyOp p op).vbatt_enable = p.vbatt_enable := by
  cases op with
  | set_power b => exact power_set_vbatt p b
  | suspend => exact power_set_vbatt p false
  | resume => exact power_set_vbatt p true
  | attr_read => rfl
  | attr_write buf =>
    simp only [applyOp, enabled_store]
    rcases hk : kstrtol buf 0 with e | v
    · rfl
    · exact power_set_vbatt p (v != 0)

/-- Single-step invariant lemma: every operation preserves the line/flag
agreement. -/
theorem applyOp_inv (p : SL869Power) (op : Op) (h : p.power_enable = p.enabled) :
    (applyOp p op).power_enable = (applyOp p op).enabled := by
  cases op with
  | set_power b => exact power_set_inv p b h
  | suspend => exact power_set_inv p false h
  | resume => exact power_set_inv p true h
  | attr_read => exact h
  | attr_write buf =>
    simp only [applyOp, enabled_store]
    rcases hk : kstrtol buf 0 with e | v
    · exact h
    · exact power_set_inv p (v != 0) h

/-- The invariant is preserved along any operation sequence. -/
theorem applyOps_inv (ops : List Op) : ∀ p : SL869Power,
    p.power_enable = p.enabled →
    (applyOps p ops).power_enable = (applyOps p ops).enabled := by
  induction ops with
  | nil => intro p h; exact h
  | cons op ops ih => intro p h; exact ih _ (applyOp_inv p op h)


/-- Master case analysis of probe: either it succeeds — both lines
acquired and owned, driver data with vbatt asserted, power low, enabled
false, sysfs group present, and the configure-configure-assert-dwell
trace — or it fails with a nonzero return, owning no line and installing
no driver data, having emitted one of the three trace prefixes. -/
theorem probe_master (env : ProbeEnv) :
    (∃ g1 g2 : Int, sl869_power_probe env =
        ⟨0, [g1, g2], some ⟨true, false, false⟩, true,
          [HwEvent.config g1 false, HwEvent.config g2 false,
            HwEvent.setVbatt true, HwEvent.msleep 1000]⟩)
    ∨ ((sl869_power_probe env).ret ≠ 0
        ∧ (sl869_power_probe env).owned = []
        ∧ (sl869_power_probe env).st = none
        ∧ ((sl869_power_probe env).events = []
            ∨ (∃ g b, (sl869_power_probe env).events = [HwEvent.config g b])
            ∨ (∃ g1 b1 g2 b2, (sl869_power_probe env).events =
                [HwEvent.config g1 b1, HwEvent.config g2 b2,
                  HwEvent.setVbatt true, HwEvent.msleep 1000]))) := by
  by_cases hA : env.allocOk = false
  · have hEq : sl869_power_probe env = ⟨-ENOMEM, [], none, false, []⟩ := by
      simp [sl869_power_probe, hA]
    rw [hEq]
    exact Or.inr ⟨by decide, rfl, rfl, Or.inl rfl⟩
  · by_cases hV : gpio_is_valid env.vbattLookup = false
    · have hEq : sl869_power_probe env = ⟨env.vbattLookup, [], none, false, []⟩ := by
        simp [sl869_power_probe, hA, hV]
      rw [hEq]
      refine Or.inr ⟨?_, rfl, rfl, Or.inl rfl⟩
      intro h0
      have h0' : env.vbattLookup = 0 := h0
      rw [h0'] at hV
      exact absurd hV (by decide)
    · by_cases hR1 : gpio_request_result env.vbattLookup env.vbattReqErr = 0
      · by_cases hR2 : gpio_request_result env.powerLookup env.powerReqErr = 0
        · by_cases hS : env.sysfsErr = 0
          · have hEq : sl869_power_probe env =
                ⟨0, [env.vbattLookup, env.powerLookup], some ⟨true, false, false⟩, true,
                  [HwEvent.config env.vbattLookup false,
                    HwEvent.config env.powerLookup false,
                    HwEvent.setVbatt true, HwEvent.msleep 1000]⟩ := by
              simp [sl869_power_probe, hA, hV, hR1, hR2, hS, initLogical_requestFlags]
            exact Or.inl ⟨_, _, hEq⟩
          · have hEq : sl869_power_probe env =
                ⟨env.sysfsErr, [], none, false,
                  [HwEvent.config env.vbattLookup false,
                    HwEvent.config env.powerLookup false,
                    HwEvent.setVbatt true, HwEvent.msleep 1000]⟩ := by
              simp [sl869_power_probe, hA, hV, hR1, hR2, hS, initLogical_requestFlags]
            rw [hEq]
            exact Or.inr ⟨hS, rfl, rfl, Or.inr (Or.inr ⟨_, _, _, _, rfl⟩)⟩
        · have hEq : sl869_power_probe env =
              ⟨-ENODEV, [], none, false, [HwEvent.config env.vbattLookup false]⟩ := by
            simp [sl869_power_probe, hA, hV, hR1, hR2, initLogical_requestFlags]
          rw [hEq]
          exact Or.inr ⟨(by decide : (-ENODEV : Int) ≠ 0), rfl, rfl, Or.inr (Or.inl ⟨_, _, rfl⟩)⟩
      · have hEq : sl869_power_probe env = ⟨-ENODEV, [], none, false, []⟩ := by
          simp [sl869_power_probe, hA, hV, hR1]
        rw [hEq]
        exact Or.inr ⟨by decide, rfl, rfl, Or.inl rfl⟩

/-- power_set emits nothing but power-line writes. -/
theorem power_set_events_all (p : SL869Power) (b : Bool) :
    ((power_set p b).2).all isPowerWrite = true := by
  unfold power_set
  split
  · rfl
  · rfl

/-- Requesting an invalid gpio, or a request the environment fails, does
not succeed. -/
theorem gpio_request_result_ne (g e : Int)
    (h : gpio_is_valid g = false ∨ e ≠ 0) : gpio_request_result g e ≠ 0 := by
  unfold gpio_request_result
  split
  · rcases h with h | h
    · rename_i hg
      rw [h] at hg
      exact absurd hg (by decide)
    · exact h
  · decide

/-- Requesting a valid gpio gives the environment-supplied outcome. -/
theorem gpio_request_result_valid (g e : Int) (hg : gpio_is_valid g = true) :
    gpio_request_result g e = e := by
  simp [gpio_request_result, hg]

/-- When probe succeeds its whole outcome is determined up to the two gpio
numbers. -/
theorem probe_success_shape (env : ProbeEnv) (h : (sl869_power_probe env).ret = 0) :
    ∃ g1 g2 : Int, sl869_power_probe env =
      ⟨0, [g1, g2], some ⟨true, false, false⟩, true,
        [HwEvent.config g1 false, HwEvent.config g2 false,
          HwEvent.setVbatt true, HwEvent.msleep 1000]⟩ := by
  rcases probe_master env with hS | ⟨hret, _⟩
  · exact hS
  · exact absurd h hret

/-- The driver data a successful probe installs: vbatt asserted, power
line low, enabled false. -/
theorem probe_st_shape (env : ProbeEnv) (d : SL869Power)
    (h : (sl869_power_probe env).st = some d) :
    d = ⟨true, false, false⟩ := by
  rcases probe_master env with ⟨g1, g2, hEq⟩ | ⟨_, _, hst, _⟩
  · rw [hEq] at h
    simp only [Option.some.injEq] at h
    exact h.symm
  · rw [hst] at h
    exact Option.noConfusion h

/-- Probe either succeeds or owns no line once it has returned. -/
theorem probe_ret_or_owned (env : ProbeEnv) :
    (sl869_power_probe env).ret = 0 ∨ (sl869_power_probe env).owned = [] := by
  rcases probe_master env with ⟨g1, g2, hEq⟩ | ⟨_, how, _⟩
  · rw [hEq]
    exact Or.inl rfl
  · exact Or.inr how

/-! ### Claim theorems -/

/-- C1: In every successful run of probe (the initialize routine), the
hardware trace consists of the two line acquisitions followed immediately
by the vbatt assertion and then the uninterruptible 1000 ms dwell, with no
other line operation in between and nothing after the dwell; at the
successful return the installed driver data has vbatt true and the
controller is Disabled (enabled false, power line false).  Moreover, on
every run whatsoever, once vbatt has been asserted the trace ends with the
assert-then-dwell pair, so probe never returns — with success or error —
between the assertion and the completed dwell. -/
theorem probe_dwell_ordering (env : ProbeEnv) (h : (sl869_power_probe env).ret = 0) :
    (∃ g1 g2 : Int, (sl869_power_probe env).events =
        [HwEvent.config g1 false, HwEvent.config g2 false,
          HwEvent.setVbatt true, HwEvent.msleep 1000])
    ∧ (∃ d : SL869Power, (sl869_power_probe env).st = some d
        ∧ d.vbatt_enable = true ∧ d.enabled = false ∧ d.power_enable = false)
    ∧ ∀ env' : ProbeEnv, HwEvent.setVbatt true ∈ (sl869_power_probe env').events →
        ∃ pre, (sl869_power_probe env').events =
          pre ++ [HwEvent.setVbatt true, HwEvent.msleep 1000] := by
  obtain ⟨g1, g2, hEq⟩ := probe_success_shape env h
  refine ⟨⟨g1, g2, by rw [hEq]⟩, ⟨⟨true, false, false⟩, by rw [hEq], rfl, rfl, rfl⟩, ?_⟩
  intro env' h'
  rcases probe_master env' with ⟨a, b, hEq'⟩ | ⟨_, _, _, hev⟩
  · exact ⟨[HwEvent.config a false, HwEvent.config b false], by rw [hEq']; rfl⟩
  · rcases hev with hev | ⟨g, bb, hev⟩ | ⟨a1, b1, a2, b2, hev⟩
    · rw [hev] at h'
      exact absurd h' (by simp)
    · rw [hev] at h'
      exact absurd h' (by simp)
    · exact ⟨[HwEvent.config a1 b1, HwEvent.config a2 b2], by rw [hev]; rfl⟩

/-- Witness for probe_dwell_ordering: a concrete environment in which both
lookups find gpios 1 and 2 and everything succeeds. -/
theorem probe_dwell_ordering_witness :
    (sl869_power_probe ⟨true, 1, false, 0, 2, false, 0, 0⟩).ret = 0
    ∧ (∃ g1 g2 : Int, (sl869_power_probe ⟨true, 1, false, 0, 2, false, 0, 0⟩).events =
        [HwEvent.config g1 false, HwEvent.config g2 false,
          HwEvent.setVbatt true, HwEvent.msleep 1000])
    ∧ (∃ d : SL869Power, (sl869_power_probe ⟨true, 1, false, 0, 2, false, 0, 0⟩).st = some d
        ∧ d.vbatt_enable = true ∧ d.enabled = false ∧ d.power_enable = false) :=
  ⟨by decide, (probe_dwell_ordering ⟨true, 1, false, 0, 2, false, 0, 0⟩ (by decide)).1,
    (probe_dwell_ordering ⟨true, 1, false, 0, 2, false, 0, 0⟩ (by decide)).2.1⟩

/-- C2: set_power is idempotent: for every state and target b, the first
call writes the power line exactly when b differs from the current enabled
flag (and then exactly once), the second call in succession writes nothing
and changes nothing, and after either call get_power reads b. -/
theorem power_set_idempotent (p : SL869Power) (b : Bool) :
    (power_set p b).2 = (if p.enabled = b then ([] : List HwEvent) else [HwEvent.setPower b])
    ∧ (power_set (power_set p b).1 b).2 = ([] : List HwEvent)
    ∧ get_power (power_set p b).1 = b
    ∧ get_power (power_set (power_set p b).1 b).1 = b
    ∧ (power_set (power_set p b).1 b).1 = (power_set p b).1 := by
  rcases p with ⟨v, pw, e⟩
  cases v <;> cases pw <;> cases e <;> cases b <;> decide

/-- C3: the power line value equals the enabled flag in every state
reachable from a successfully initialized controller by any sequence of
set_power, suspend, resume, attribute-read and attribute-write operations. -/
theorem reachable_power_eq_enabled (env : ProbeEnv) (d : SL869Power) (ops : List Op)
    (h : (sl869_power_probe env).st = some d) :
    (applyOps d ops).power_enable = (applyOps d ops).enabled := by
  have hd := probe_st_shape env d h
  exact applyOps_inv ops d (by rw [hd])

/-- Witness for reachable_power_eq_enabled: a successful probe followed by
a concrete operation sequence. -/
theorem reachable_power_eq_enabled_witness :
    (sl869_power_probe ⟨true, 1, false, 0, 2, false, 0, 0⟩).st = some ⟨true, false, false⟩
    ∧ (applyOps ⟨true, false, false⟩
        [Op.set_power true, Op.attr_write "1", Op.suspend, Op.resume]).power_enable
      = (applyOps ⟨true, false, false⟩
        [Op.set_power true, Op.attr_write "1", Op.suspend, Op.resume]).enabled :=
  ⟨by decide, reachable_power_eq_enabled ⟨true, 1, false, 0, 2, false, 0, 0⟩
    ⟨true, false, false⟩ [Op.set_power true, Op.attr_write "1", Op.suspend, Op.resume]
    (by decide)⟩

/-- C4: no sequence of steady-state operations ever changes the vbatt line
value, and every hardware event any single operation emits is a write to
the power line — never to vbatt. -/
theorem ops_never_touch_vbatt (p : SL869Power) (ops : List Op) :
    (applyOps p ops).vbatt_enable = p.vbatt_enable
    ∧ ∀ op : Op, (opEvents p op).all isPowerWrite = true := by
  constructor
  · induction ops generalizing p with
    | nil => rfl
    | cons op ops ih => exact (ih (applyOp p op)).trans (applyOp_vbatt p op)
  · intro op
    cases op with
    | set_power b => exact power_set_events_all p b
    | suspend => exact power_set_events_all p false
    | resume => exact power_set_events_all p true
    | attr_read => rfl
    | attr_write buf =>
      show ((enabled_store p buf).2.2).all isPowerWrite = true
      simp only [enabled_store]
      rcases hk : kstrtol buf 0 with e | v
      · rfl
      · exact power_set_events_all p (v != 0)

/-- C5 counterexample: the claim that a transient (deferred) failure of the
second line acquisition reaches the caller as the deferred kind is false.
In the environment where the vbatt line is found (gpio 1) and requested
successfully but the power-enable lookup defers (-EPROBE_DEFER), probe
returns -ENODEV — the permanent kind — because the second lookup result is
never validity-checked and every request failure is collapsed to -ENODEV. -/
theorem probe_second_defer_collapsed :
    (⟨true, 1, false, 0, -EPROBE_DEFER, false, 0, 0⟩ : ProbeEnv).powerLookup = -EPROBE_DEFER
    ∧ (sl869_power_probe ⟨true, 1, false, 0, -EPROBE_DEFER, false, 0, 0⟩).ret = -ENODEV
    ∧ (sl869_power_probe ⟨true, 1, false, 0, -EPROBE_DEFER, false, 0, 0⟩).ret
        ≠ -EPROBE_DEFER :=
  ⟨rfl, by decide, by decide⟩

/-- C5 amended: failures of the first line lookup propagate with their own
code, so a deferred first lookup reaches the caller as -EPROBE_DEFER,
distinct from permanent codes; but every request failure on either line,
and any failure of the second line lookup (deferred included), is collapsed
into the permanent kind -ENODEV. -/
theorem probe_error_kinds (env : ProbeEnv) (hA : env.allocOk = true) :
    (gpio_is_valid env.vbattLookup = false →
      (sl869_power_probe env).ret = env.vbattLookup)
    ∧ (gpio_is_valid env.vbattLookup = true → env.vbattReqErr ≠ 0 →
      (sl869_power_probe env).ret = -ENODEV)
    ∧ (gpio_is_valid env.vbattLookup = true → env.vbattReqErr = 0 →
      (gpio_is_valid env.powerLookup = false ∨ env.powerReqErr ≠ 0) →
      (sl869_power_probe env).ret = -ENODEV) := by
  refine ⟨?_, ?_, ?_⟩
  · intro hV
    simp [sl869_power_probe, hA, hV]
  · intro hV hR
    have hR1 := gpio_request_result_ne env.vbattLookup env.vbattReqErr (Or.inr hR)
    simp [sl869_power_probe, hA, hV, hR1]
  · intro hV hRok hP
    have hR1 : gpio_request_result env.vbattLookup env.vbattReqErr = 0 :=
      (gpio_request_result_valid env.vbattLookup env.vbattReqErr hV).trans hRok
    have hR2 := gpio_request_result_ne env.powerLookup env.powerReqErr hP
    simp [sl869_power_probe, hA, hV, hR1, hR2]

/-- Witness for probe_error_kinds: a deferred first lookup propagates its
own -EPROBE_DEFER code to the caller. -/
theorem probe_error_kinds_witness :
    (⟨true, -EPROBE_DEFER, false, 0, 2, false, 0, 0⟩ : ProbeEnv).allocOk = true
    ∧ gpio_is_valid (-EPROBE_DEFER) = false
    ∧ (sl869_power_probe ⟨true, -EPROBE_DEFER, false, 0, 2, false, 0, 0⟩).ret
        = -EPROBE_DEFER :=
  ⟨rfl, by decide,
    (probe_error_kinds ⟨true, -EPROBE_DEFER, false, 0, 2, false, 0, 0⟩ rfl).1 (by decide)⟩

/-- C6: the attribute write parses its input with kstrtol; on a parse
error it returns that error and changes neither the enabled flag nor
either line value and writes no hardware; on a successful parse of v it
behaves exactly as set_power applied to the C truthiness of v and returns
the number of input bytes consumed. -/
theorem enabled_store_spec (p : SL869Power) (buf : String) :
    (∀ e : Int, kstrtol buf 0 = Except.error e →
      (enabled_store p buf).1 = Except.error e
      ∧ (enabled_store p buf).2.1 = p
      ∧ (enabled_store p buf).2.2 = [])
    ∧ ∀ v : Int, kstrtol buf 0 = Except.ok v →
      (enabled_store p buf).1 = Except.ok buf.length
      ∧ (enabled_store p buf).2 = power_set p (v != 0) := by
  constructor
  · intro e he
    simp [enabled_store, he]
  · intro v hv
    simp [enabled_store, hv]

/-- Witness for enabled_store_spec: the rejected input "not-a-number"
leaves the state untouched, and the accepted input "1" consumes one byte
and acts as set_power(true). -/
theorem enabled_store_spec_witness :
    (kstrtol "not-a-number" 0 = Except.error (-EINVAL)
      ∧ (enabled_store ⟨true, true, true⟩ "not-a-number").1 = Except.error (-EINVAL)
      ∧ (enabled_store ⟨true, true, true⟩ "not-a-number").2.1 = ⟨true, true, true⟩
      ∧ (enabled_store ⟨true, true, true⟩ "not-a-number").2.2 = [])
    ∧ kstrtol "1" 0 = Except.ok 1
    ∧ (enabled_store ⟨true, false, false⟩ "1").1 = Except.ok ("1".length)
    ∧ (enabled_store ⟨true, false, false⟩ "1").2 = power_set ⟨true, false, false⟩ ((1 : Int) != 0) :=
  ⟨⟨by decide,
    (enabled_store_spec ⟨true, true, true⟩ "not-a-number").1 (-EINVAL) (by decide)⟩,
    by decide,
    (enabled_store_spec ⟨true, false, false⟩ "1").2 1 (by decide)⟩

/-- C7: the attribute read renders get_power as exactly "0\n" when the
flag is false and "1\n" when it is true, without touching the state, and
the write/read round-trip holds for "1" and "0". -/
theorem enabled_show_roundtrip (p : SL869Power) :
    enabled_show p = (if get_power p then "1\n" else "0\n")
    ∧ enabled_show (enabled_store p "1").2.1 = "1\n"
    ∧ enabled_show (enabled_store p "0").2.1 = "0\n" := by
  rcases p with ⟨v, pw, e⟩
  cases v <;> cases pw <;> cases e <;> decide

/-- C8: suspend behaves exactly as set_power(false) and resume exactly as
set_power(true): both always return 0, suspend leaves get_power false and
resume leaves it true, and each writes the hardware line exactly once when
the state changes and not at all otherwise. -/
theorem suspend_resume_force (p : SL869Power) :
    (sl869_power_suspend p).1 = 0
    ∧ (sl869_power_resume p).1 = 0
    ∧ (sl869_power_suspend p).2 = power_set p false
    ∧ (sl869_power_resume p).2 = power_set p true
    ∧ get_power (sl869_power_suspend p).2.1 = false
    ∧ get_power (sl869_power_resume p).2.1 = true
    ∧ (sl869_power_suspend p).2.2
        = (if p.enabled = false then ([] : List HwEvent) else [HwEvent.setPower false])
    ∧ (sl869_power_resume p).2.2
        = (if p.enabled = true then ([] : List HwEvent) else [HwEvent.setPower true]) := by
  rcases p with ⟨v, pw, e⟩
  cases v <;> cases pw <;> cases e <;> decide

/-- C9: whenever probe (initialize) returns an error, no gpio line remains
claimed: any line acquired earlier in that call has been released by the
time the error reaches the caller. -/
theorem probe_error_releases (env : ProbeEnv) (h : (sl869_power_probe env).ret ≠ 0) :
    (sl869_power_probe env).owned = [] :=
  (probe_ret_or_owned env).resolve_left h

/-- Witness for probe_error_releases: the vbatt line (gpio 1) is acquired,
then the power-enable request fails, and the failed probe leaves no claim. -/
theorem probe_error_releases_witness :
    (sl869_power_probe ⟨true, 1, false, 0, 2, false, 1, 0⟩).ret ≠ 0
    ∧ (sl869_power_probe ⟨true, 1, false, 0, 2, false, 1, 0⟩).owned = [] :=
  ⟨by decide, probe_error_releases ⟨true, 1, false, 0, 2, false, 1, 0⟩ (by decide)⟩

/-- C10: remove only withdraws the sysfs attribute group and returns 0; it
emits no hardware event and leaves the driver data — the enabled flag and
both line values, vbatt still asserted among them — exactly as it was. -/
theorem remove_frame (d : DeviceState) :
    (sl869_power_remove d).1 = 0
    ∧ (sl869_power_remove d).2.2 = ([] : List HwEvent)
    ∧ (sl869_power_remove d).2.1.power = d.power
    ∧ (sl869_power_remove d).2.1.groupPresent = false :=
  ⟨rfl, rfl, rfl, rfl⟩
